import Mathlib

/-!
Verification development for the agent-flow runtime engine.

Shallow embedding of the Python sources under `src/`:
pure fragments of the services become Lean functions, the store becomes
explicit state passing, outbound RPCs become effect lists plus oracle
outcomes, and fallible code returns `Option`/`Except`.
-/

namespace AgentFlow

/-- Python `s.lower()` (per-character lowercasing, as `str.lower` acts on
the ASCII inputs the engine compares). -/
def pyLower (s : String) : String :=
  ⟨s.data.map Char.toLower⟩

/-- Python `s.strip()`: drop leading and trailing whitespace. -/
def pyStrip (s : String) : String :=
  ⟨((s.data.dropWhile Char.isWhitespace).reverse.dropWhile Char.isWhitespace).reverse⟩

/-- Boolean prefix test on character lists. -/
def charListPrefix : List Char → List Char → Bool
  | [], _ => true
  | _ :: _, [] => false
  | a :: as, b :: bs => a == b && charListPrefix as bs

/-- Boolean contiguous-sublist test on character lists (Python `in` on
strings). -/
def charListInfix (needle : List Char) : List Char → Bool
  | [] => needle.isEmpty
  | c :: rest => charListPrefix needle (c :: rest) || charListInfix needle rest

/-- Python `needle in hay` (case-sensitive substring). -/
def pySubstr (needle hay : String) : Bool :=
  charListInfix needle.data hay.data

/-- Case-insensitive substring test, mirroring Python
`needle.lower() in hay.lower()`. -/
def ciSubstring (needle hay : String) : Bool :=
  pySubstr (pyLower needle) (pyLower hay)

/-- Case-insensitive equality, mirroring Python `a.lower() == b.lower()`. -/
def ciEqual (a b : String) : Bool :=
  pyLower a == pyLower b

/-- Python truthiness for an optional string: `None` and `""` are falsy. -/
def pyTruthy : Option String → Bool
  | none => false
  | some s => s != ""

/-- Python `int(s)` restricted to plain decimal numerals with an optional
sign and surrounding whitespace; anything else is a `ValueError` (`none`). -/
def pyParseInt (s : String) : Option Int :=
  let t := pyStrip s
  match t.data with
  | [] => none
  | c :: cs =>
    let signNeg : Bool := c == '-'
    let ds : List Char := if c == '-' || c == '+' then cs else c :: cs
    if ds ≠ [] && ds.all Char.isDigit then
      let n : Nat := ds.foldl (fun acc d => acc * 10 + (d.toNat - 48)) 0
      some (if signNeg then -(n : Int) else (n : Int))
    else none

/-! ## Trigger Matcher (`services/trigger_identification_service.py`) -/

/-- A stored trigger row (`models/flow_trigger_data.py`), as consumed by
`check_and_get_flow_for_trigger`. -/
structure FlowTrigger where
  trigger_type : String
  trigger_values : List String
  flow_id : String
  node_id : String
  deriving Repr, DecidableEq

/-- The trigger scanning loop of `check_and_get_flow_for_trigger`
(lines 245-300): keyword triggers apply only to `text` messages and use a
case-insensitive substring test; template triggers apply to any message
type and use case-insensitive equality; the first matching trigger wins
and unknown trigger types are skipped. -/
def checkTriggersLoop (messageType text : String) : List FlowTrigger → Option (String × String)
  | [] => none
  | t :: ts =>
    if t.trigger_type == "keyword" then
      if messageType == "text" then
        if t.trigger_values.any (fun k => ciSubstring k text) then
          some (t.flow_id, t.node_id)
        else checkTriggersLoop messageType text ts
      else checkTriggersLoop messageType text ts
    else if t.trigger_type == "template" then
      if t.trigger_values.any (fun v => ciEqual v text) then
        some (t.flow_id, t.node_id)
      else checkTriggersLoop messageType text ts
    else checkTriggersLoop messageType text ts

/-- `check_and_get_flow_for_trigger` (lines 191-312): the normalized
`user_reply` is trimmed and a missing or empty text yields no match,
otherwise the trigger table is scanned in stored order. -/
def check_and_get_flow_for_trigger (triggers : List FlowTrigger)
    (messageType : String) (userReply : Option String) : Option (String × String) :=
  let text := pyStrip (userReply.getD "")
  if text == "" then none
  else checkTriggersLoop messageType text triggers

/-- Spec-side reading of a single trigger match (spec section 4.3): a
keyword trigger matches only for `message_type == "text"` when some value
is a case-insensitive substring of the text; a template trigger matches
for any message type when some value equals the text case-insensitively. -/
def specTriggerMatches (messageType text : String) (t : FlowTrigger) : Bool :=
  (t.trigger_type == "keyword" && messageType == "text"
      && t.trigger_values.any (fun k => ciSubstring k text))
    || (t.trigger_type == "template"
      && t.trigger_values.any (fun v => ciEqual v text))

/-! ## Reply Validator (`services/reply_validation_service.py`) -/

/-- The `answerValidation` record of a node, with Python dict-get
semantics: string fields default to `""`; `failsCount` is `none` when the
key is absent (the source reads it with default `"3"`). -/
structure AnswerValidation where
  vtype : String := ""
  regex : String := ""
  minValue : String := ""
  maxValue : String := ""
  failsCount : Option String := none
  fallback : String := ""
  deriving Repr, DecidableEq

/-- External Python primitives the validator calls out to: `float(s)`
(`none` encodes `ValueError`) and `re.search(pattern, s)` (`none` encodes
`re.error` for an invalid pattern). The claims hold for every behaviour
of these primitives. -/
structure PyPrims where
  pyFloat : String → Option Rat
  regexSearch : String → String → Option Bool

/-- `is_numeric_string` (lines 486-494): empty or whitespace-only strings
are not numeric; otherwise Python `float(s.strip())` must succeed. -/
def is_numeric_string (prims : PyPrims) (s : String) : Bool :=
  if pyStrip s == "" then false
  else (prims.pyFloat (pyStrip s)).isSome

/-- The `Number` validation branch (lines 497-545): the reply must parse
as a real; a set `minValue`/`maxValue` is compared numerically, and an
unparsable bound fails the validation (the `except` branch). -/
def numberValidationPassed (prims : PyPrims) (av : AnswerValidation)
    (reply : String) : Bool :=
  if !(is_numeric_string prims reply) then false
  else
    let afterMin : Bool :=
      if av.minValue != "" && pyStrip av.minValue != "" then
        match prims.pyFloat (pyStrip reply), prims.pyFloat (pyStrip av.minValue) with
        | some u, some m => decide (¬ u < m)
        | _, _ => false
      else true
    if afterMin && av.maxValue != "" && pyStrip av.maxValue != "" then
      match prims.pyFloat (pyStrip reply), prims.pyFloat (pyStrip av.maxValue) with
      | some u, some m => decide (¬ m < u)
      | _, _ => false
    else afterMin

/-- The `Text` validation branch (lines 547-579): a set `minValue` or
`maxValue` bounds the reply length; an unparsable bound only logs a
warning and leaves the validation passing. -/
def textValidationPassed (av : AnswerValidation) (reply : String) : Bool :=
  let afterMin : Bool :=
    if av.minValue != "" && pyStrip av.minValue != "" then
      match pyParseInt (pyStrip av.minValue) with
      | some minLen => decide (¬ ((reply.length : Int) < minLen))
      | none => true
    else true
  if afterMin && av.maxValue != "" && pyStrip av.maxValue != "" then
    match pyParseInt (pyStrip av.maxValue) with
    | some maxLen => decide (¬ (maxLen < (reply.length : Int)))
    | none => afterMin
  else afterMin

/-- Character class `[a-zA-Z0-9._%+-]` of the email pattern. -/
def isEmailLocalChar (c : Char) : Bool :=
  c.isAlphanum || c == '.' || c == '_' || c == '%' || c == '+' || c == '-'

/-- Character class `[a-zA-Z0-9.-]` of the email pattern. -/
def isEmailDomainChar (c : Char) : Bool :=
  c.isAlphanum || c == '.' || c == '-'

/-- The anchored email pattern of the `Email` branch (line 584), unrolled:
a nonempty local part over its class, one at sign, then a domain matching
a nonempty body over its class, a final dot, and an alphabetic top-level
part of length at least 2 (the dot of the pattern necessarily matches the
last dot of the domain, since the tail is alphabetic). -/
def emailRegexMatches (s : String) : Bool :=
  match s.data.span (fun c => c != '@') with
  | (loc, rest) =>
    match rest with
    | [] => false
    | _ :: domain =>
      match domain.reverse.span (fun c => c != '.') with
      | (tldRev, dotRev) =>
        match dotRev with
        | [] => false
        | _ :: bodyRev =>
          decide (loc ≠ []) && loc.all isEmailLocalChar &&
          decide (bodyRev ≠ []) && bodyRev.all isEmailDomainChar &&
          decide (tldRev.length ≥ 2) && tldRev.all (fun c => c.isAlpha)

/-- Characters removed by the `Phone` branch before the digit check
(line 597, `[\s\-\(\)\+]`; ASCII whitespace suffices for our inputs). -/
def isPhoneStripChar (c : Char) : Bool :=
  c.isWhitespace || c == '-' || c == '(' || c == ')' || c == '+'

/-- The `Phone` validation branch (lines 593-604): after stripping
formatting characters at least 7 characters must remain, all digits. -/
def phoneValidationPassed (reply : String) : Bool :=
  let cleaned := (pyStrip reply).data.filter (fun c => !(isPhoneStripChar c))
  decide (cleaned ≠ []) && cleaned.all Char.isDigit && decide (cleaned.length ≥ 7)

/-- The full `validation_passed` computation of the text-question branch
(lines 468-621): type-specific check per `answerValidation.type`, then the
optional `regex` check which applies to every type, where an invalid
pattern only logs a warning; an absent `answerValidation` record passes. -/
def validationPassed (prims : PyPrims) (avOpt : Option AnswerValidation)
    (reply : String) : Bool :=
  match avOpt with
  | none => true
  | some av =>
    let afterType : Bool :=
      if av.vtype == "Number" then numberValidationPassed prims av reply
      else if av.vtype == "Text" then textValidationPassed av reply
      else if av.vtype == "Email" then emailRegexMatches (pyStrip reply)
      else if av.vtype == "Phone" then phoneValidationPassed reply
      else true
    if afterType && av.regex != "" && pyStrip av.regex != "" then
      match prims.regexSearch av.regex reply with
      | some b => b
      | none => afterType
    else afterType

/-- An `expectedAnswers` entry of an interactive node. -/
structure ExpectedAnswer where
  expectedInput : String := ""
  id : String := ""
  deriving Repr, DecidableEq

/-- A `flowNodeConditions` entry of a condition node. -/
structure ConditionItem where
  variableName : String := ""
  flowConditionType : String := ""
  value : String := ""
  deriving Repr, DecidableEq

/-- A `conditionResult` or `delayResult` entry: only its `id` matters to
the runtime (the synthetic selector id used as an edge source). -/
structure ResultItem where
  id : String := ""
  deriving Repr, DecidableEq

/-- A flow node as the runtime reads it (a Python dict accessed with
`.get` and defaults); the type-specific payloads are flattened into one
record, mirroring the dict shape. -/
structure FlowNode where
  id : String
  nodeType : String
  userInputVariable : String := ""
  answerValidation : Option AnswerValidation := none
  expectedAnswers : List ExpectedAnswer := []
  flowNodeConditions : List ConditionItem := []
  conditionResult : List ResultItem := []
  conditionOperator : String := "None"
  delayDuration : Int := 0
  delayUnit : String := "minutes"
  waitForReply : Bool := false
  delayInterrupt : Bool := false
  delayResult : List ResultItem := []
  deriving Repr, DecidableEq

/-- `process_reply_match` (lines 30-87): only interactive node types are
matched; a nonempty `expectedInput` equal to the reply case-insensitively
yields the matched answer id, scanning in stored order. -/
def process_reply_match (node : FlowNode) (userReply : String) : Option String :=
  if node.nodeType == "trigger_template" || node.nodeType == "button_question"
      || node.nodeType == "list_question" then
    if node.expectedAnswers.isEmpty then none
    else if userReply == "" then none
    else (node.expectedAnswers.find?
        (fun a => a.expectedInput != "" && ciEqual a.expectedInput userReply)).map
      (fun a => a.id)
  else none

/-- The `max_fallback_count` computation repeated at lines 127-136,
626-636 and 724-737: the node's `failsCount` read with dict default
`"3"`, parsed with `int()`, falling back to 3 on an empty value or a
parse error. -/
def maxFallbackCount (avOpt : Option AnswerValidation) : Int :=
  match avOpt with
  | none => 3
  | some av =>
    let fcs := av.failsCount.getD "3"
    if fcs == "" then 3 else (pyParseInt fcs).getD 3

/-- The `fallback_message` computation repeated at lines 146-155, 638-647
and 739-748: the node's nonblank `fallback`, stripped, else the default
response text. -/
def fallbackMessageOf (avOpt : Option AnswerValidation) : String :=
  match avOpt with
  | none => "This is not the valid response. Please try again below"
  | some av =>
    if av.fallback != "" && pyStrip av.fallback != "" then pyStrip av.fallback
    else "This is not the valid response. Please try again below"

/-- The outcome record of `validate_and_match_reply`, extended with the
`save_or_update_flow_variable` call it performs (variable name, value). -/
structure ValidateReplyResult where
  status : String
  matched_answer_id : Option String := none
  matched_node_id : Option String := none
  fallback_message : Option String := none
  savedVariable : Option (String × String) := none
  deriving Repr, DecidableEq

/-- The `is_text = true` path of `validate_and_match_reply`
(lines 306-699, with flow, edges and the current node already loaded):
an empty reply errors out; a current-node match returns `matched`
(impossible for `question` nodes, whose type is outside
`process_reply_match`'s scope); otherwise the reply is validated against
`answerValidation`, and on failure `failsCount` (string field, default 3)
and `fallback` (default message) decide between `validation_exit` and
`mismatch_retry`; on success the reply is persisted under a declared
`userInputVariable` and `use_default_edge` is returned. -/
def validate_and_match_reply_is_text (prims : PyPrims) (node : FlowNode)
    (userReply : String) (currentValidationCount : Int) : ValidateReplyResult :=
  if userReply == "" then
    { status := "error" }
  else
    match process_reply_match node userReply with
    | some matchedAnswerId =>
      let saved :=
        if node.userInputVariable != "" then some (node.userInputVariable, userReply)
        else none
      { status := "matched", matched_answer_id := some matchedAnswerId,
        savedVariable := saved }
    | none =>
      let passed := validationPassed prims node.answerValidation userReply
      if !passed then
        let maxCount : Int := maxFallbackCount node.answerValidation
        let fallback : String := fallbackMessageOf node.answerValidation
        if maxCount ≤ currentValidationCount then
          { status := "validation_exit", fallback_message := some fallback }
        else
          { status := "mismatch_retry", fallback_message := some fallback }
      else
        let saved :=
          if node.userInputVariable != "" then some (node.userInputVariable, userReply)
          else none
        { status := "use_default_edge", savedVariable := saved }

/-- Spec-side reading of the validation cap: the node's `failsCount`,
defaulting to 3 when absent, empty or unparsable. -/
def specFailsCount (avOpt : Option AnswerValidation) : Int :=
  match avOpt with
  | none => 3
  | some av =>
    match av.failsCount with
    | none => 3
    | some s => if s = "" then 3 else (pyParseInt s).getD 3

/-- Spec-side reading of the fallback message: the node's nonblank
`fallback`, trimmed, else the default response. -/
def specFallbackMessage (avOpt : Option AnswerValidation) : String :=
  match avOpt with
  | none => "This is not the valid response. Please try again below"
  | some av =>
    if pyStrip av.fallback ≠ "" then pyStrip av.fallback
    else "This is not the valid response. Please try again below"

/-! ## FlowUserContext store (`database/flow_db.py`) -/

/-- `save_or_update_flow_variable` (lines 741-783) restricted to one
user, brand and flow: upsert keyed by `variable_name`. -/
def save_or_update_flow_variable (ctx : List (String × String))
    (name value : String) : List (String × String) :=
  if ctx.any (fun p => p.1 == name) then
    ctx.map (fun p => if p.1 == name then (p.1, value) else p)
  else ctx ++ [(name, value)]

/-- Dictionary lookup over the captured variables (`context_dict.get`). -/
def flowContextGet (ctx : List (String × String)) (name : String) : Option String :=
  (ctx.find? (fun p => p.1 == name)).map (fun p => p.2)

/-! ## Internal Node Processor (`services/process_internal_node_service.py`) -/

/-- The captured-variable lookup of `_process_condition_node`
(lines 180-193): try the name with a leading `@`, then without any
leading `@`; `None` and `""` fall through, missing variables become the
empty string. -/
def conditionActualValue (ctx : List (String × String)) (variableName : String) : String :=
  let withAt : String :=
    match variableName.data with
    | '@' :: _ => variableName
    | _ => "@" ++ variableName
  let withoutAt : String := ⟨variableName.data.dropWhile (fun c => c == '@')⟩
  let v1 := flowContextGet ctx withAt
  if pyTruthy v1 then v1.getD ""
  else
    let v2 := flowContextGet ctx withoutAt
    if pyTruthy v2 then v2.getD "" else ""

/-- One comparator evaluation (lines 207-268): `Equal`/`NotEqual` are
case-insensitive string equality, `Contains`/`NotContains`
case-insensitive substring, `GreaterThan`/`LessThan` numeric via
`float()` with non-numeric operands evaluating to false; unknown
comparators are false. -/
def evaluate_condition (prims : PyPrims) (actual expected condType : String) : Bool :=
  if condType == "Equal" then ciEqual actual expected
  else if condType == "NotEqual" then !(ciEqual actual expected)
  else if condType == "Contains" then ciSubstring expected actual
  else if condType == "NotContains" then !(ciSubstring expected actual)
  else if condType == "GreaterThan" then
    match prims.pyFloat actual, prims.pyFloat expected with
    | some a, some e => decide (e < a)
    | _, _ => false
  else if condType == "LessThan" then
    match prims.pyFloat actual, prims.pyFloat expected with
    | some a, some e => decide (a < e)
    | _, _ => false
  else false

/-- The branch-id extraction loop of `_process_condition_node`
(lines 150-159): the last item whose id contains `__true` (respectively
`__false`, checked only when `__true` is absent) wins. -/
def extractBranchIds (items : List ResultItem) : Option String × Option String :=
  items.foldl
    (fun acc item =>
      if pySubstr "__true" item.id then (some item.id, acc.2)
      else if pySubstr "__false" item.id then (acc.1, some item.id)
      else acc)
    (none, none)

/-- `_process_condition_node` (lines 117-313) over already-loaded
captured variables: evaluate every condition, combine with
`conditionOperator` (`None` behaves as `AND`, anything else yields
false), and return the matching branch selector id; `none` models the
error returns (no conditions, missing branch id). -/
def process_condition_node (prims : PyPrims) (ctx : List (String × String))
    (node : FlowNode) : Option String :=
  if node.flowNodeConditions.isEmpty then none
  else
    let ids := extractBranchIds node.conditionResult
    let results := node.flowNodeConditions.map (fun c =>
      evaluate_condition prims (conditionActualValue ctx c.variableName)
        c.value c.flowConditionType)
    let finalResult : Bool :=
      if node.conditionOperator == "AND" || node.conditionOperator == "None" then
        results.all (fun b => b)
      else if node.conditionOperator == "OR" then
        results.any (fun b => b)
      else false
    if finalResult then ids.1 else ids.2

/-- `_process_delay_node` (lines 315-372): compute the wait in seconds
from `(delayDuration, delayUnit)`; an unknown unit leaves the raw
duration. Returns `(delay_duration, delay_unit, wait_time_seconds,
wait_for_reply)`. -/
def process_delay_node (node : FlowNode) : Int × String × Int × Bool :=
  let d := node.delayDuration
  let w : Int :=
    if node.delayUnit == "minutes" then d * 60
    else if node.delayUnit == "hours" then d * 3600
    else if node.delayUnit == "days" then d * 86400
    else d
  (d, node.delayUnit, w, node.waitForReply)

/-- The `processed_value` a walker call can return: a condition branch
selector id, or the delay information record. -/
inductive ProcessedValue
  | branchId (id : String)
  | delayInfo (delay_duration : Int) (delay_unit : String)
      (wait_time_seconds : Int) (wait_for_reply : Bool)
  deriving Repr, DecidableEq

/-- `process_internal_node` (lines 26-115): find the node, dispatch on
`condition`/`delay`; `none` models every error return. -/
def process_internal_node (prims : PyPrims) (ctx : List (String × String))
    (nodes : List FlowNode) (nodeId : String) : Option ProcessedValue :=
  match nodes.find? (fun n => n.id == nodeId) with
  | none => none
  | some n =>
    if n.nodeType == "condition" then
      (process_condition_node prims ctx n).map ProcessedValue.branchId
    else if n.nodeType == "delay" then
      match process_delay_node n with
      | (d, u, w, wr) => some (ProcessedValue.delayInfo d u w wr)
    else none

/-- Concrete primitives for witnesses: `float` always fails, `re.search`
always matches. -/
def pyPrimsFixture : PyPrims where
  pyFloat := fun _ => none
  regexSearch := fun _ _ => some true

/-- A phone-validated text question fixture used by witnesses. -/
def phoneQuestionFixture : FlowNode where
  id := "q1"
  nodeType := "question"
  userInputVariable := "@x"
  answerValidation := some { vtype := "Phone" }

/-! ## Walker edge resolution (`services/node_identification_service.py`) -/

/-- An edge row as returned by `FlowDB.get_flow_edges` (flow_db.py
lines 449-473). -/
structure Edge where
  source_node_id : String
  target_node_id : String
  deriving Repr, DecidableEq

/-- The edge-lookup loop of `identify_and_process_node` (lines 233-240):
scan the stored edges and take the first whose `source_node_id` matches. -/
def resolve (edges : List Edge) (sourceId : String) : Option String :=
  match edges with
  | [] => none
  | e :: rest =>
    if e.source_node_id == sourceId then some e.target_node_id
    else resolve rest sourceId

/-! ## User state store (`models/user_data.py`, `database/flow_db.py`) -/

/-- The `validation` sub-document of a user row
(`models/validation_data.py`). -/
structure ValidationState where
  failed : Bool := false
  failure_count : Int := 0
  failure_message : Option String := none
  deriving Repr, DecidableEq

/-- The automation-relevant fields of a stored user row
(`models/user_data.py`). `delay_node_data` abstracts the stored delay
node JSON by its node id. -/
structure StoredUser where
  is_in_automation : Bool := false
  current_flow_id : Option String := none
  current_node_id : Option String := none
  channel : String := "whatsapp"
  channel_account_id : Option String := none
  validation : ValidationState := {}
  delay_node_data : Option String := none
  deriving Repr, DecidableEq

/-- `FlowDB.update_user_automation_state` (flow_db.py lines 617-657):
the Mongo `$set` document includes `current_flow_id`, `current_node_id`
and `channel_account_id` only when the passed value is not `None`, so a
`None` argument leaves the stored field untouched; `delay_node_data` is
stored when passed and cleared when exiting automation. -/
def update_user_automation_state (u : StoredUser) (isInAutomation : Bool)
    (currentFlowId currentNodeId : Option String) (channel : String)
    (channelAccountId : Option String) (delayNodeData : Option String) : StoredUser :=
  { u with
    is_in_automation := isInAutomation
    channel := channel
    current_flow_id :=
      match currentFlowId with
      | some f => some f
      | none => u.current_flow_id
    current_node_id :=
      match currentNodeId with
      | some n => some n
      | none => u.current_node_id
    channel_account_id :=
      match channelAccountId with
      | some a => some a
      | none => u.channel_account_id
    delay_node_data :=
      match delayNodeData with
      | some d => some d
      | none => if isInAutomation then u.delay_node_data else none }

/-- `FlowDB.update_validation_state` (flow_db.py lines 659-712): a failed
validation increments `failure_count` and records the message, otherwise
the counter resets to zero. -/
def update_validation_state (u : StoredUser) (validationFailed : Bool)
    (failureMessage : Option String) (channel : String)
    (channelAccountId : Option String) : StoredUser :=
  let v : ValidationState :=
    if validationFailed then
      { failed := true, failure_count := u.validation.failure_count + 1,
        failure_message := failureMessage }
    else
      { failed := false, failure_count := 0, failure_message := none }
  { u with
    validation := v
    channel := channel
    channel_account_id :=
      match channelAccountId with
      | some a => some a
      | none => u.channel_account_id }

/-! ## Node Walker (`services/node_identification_service.py`,
`services/whatsapp_flow_service.py`) -/

/-- A `node_details` registry row (`models/node_detail_data.py`), looked
up by node type. -/
structure NodeDetail where
  node_id : String
  user_input_required : Bool
  deriving Repr, DecidableEq

/-- The environment a walker run reads: the loaded flow (`none` models a
missing flow), its edges, the `node_details` registry, the captured
variables of the user, the Python primitives, and the outcome of the
outbound node-process RPC (`call_node_process_api` returns an error
result on non-200 replies, timeouts and exceptions —
whatsapp_flow_service.py lines 122-226). -/
structure Env where
  flow : Option (List FlowNode)
  edges : List Edge
  node_details : List NodeDetail := []
  contexts : List (String × String) := []
  prims : PyPrims := pyPrimsFixture
  dispatchOk : Bool := true

/-- An externally visible action of a walker run: a POST to the
node-process endpoint carrying the node ids, the fallback message and the
validation-error flag (`ProcessNodeRequest`). -/
inductive Effect
  | processNodeCall (current_node_id next_node_id : Option String)
      (fallback_message : Option String) (is_validation_error : Bool)
  deriving Repr, DecidableEq

/-- The walker's return value plus the effects it emitted. -/
structure WalkerOut where
  status : String
  next_node_id : Option String := none
  processed_value : Option ProcessedValue := none
  effects : List Effect := []
  deriving Repr, DecidableEq

/-- Arguments of `identify_and_process_node`: `matched_answer_id` is the
value the walker reads from the normalized `data` dict (in the deployed
pipeline the adapter never stores one, but the walker reads it, so it is
kept). -/
structure WalkerArgs where
  matched_answer_id : Option String := none
  is_validation_error : Bool := false
  fallback_message : Option String := none
  node_id_to_process : Option String := none
  current_node_id : String
  channel : String := "whatsapp"

/-- `detect_and_chain_nodes` (whatsapp_flow_service.py lines 228-334):
only a just-processed `message` node chains, via its first outgoing edge,
into a target that exists and is itself a `message` node. -/
def detect_and_chain_nodes (nodes : List FlowNode) (edges : List Edge)
    (processedNodeId : String) (processedNode : FlowNode) : Option String :=
  if processedNode.nodeType != "message" then none
  else
    match edges.find? (fun e => e.source_node_id == processedNodeId) with
    | none => none
    | some e =>
      match nodes.find? (fun n => n.id == e.target_node_id) with
      | none => none
      | some nd =>
        if nd.nodeType == "button_question" || nd.nodeType == "list_question"
            || nd.nodeType == "question" then none
        else if nd.nodeType == "message" then some e.target_node_id
        else none

/-- Steps 6.5-10 of `identify_and_process_node` (lines 267-443) once the
next node is identified: internal nodes go to the Internal Node
Processor; other nodes are dispatched to the node-process endpoint for
the whatsapp channel (skipped for other channels), a failed dispatch
propagates as an error, and a processed `message` node auto-chains
through `recur` (the fueled recursive walker call, which the source makes
with `data`, hence `matched_answer_id`, passed through). -/
def walkerProcessNext (env : Env) (nodes : List FlowNode)
    (recur : WalkerArgs → WalkerOut) (args : WalkerArgs)
    (nextNodeId : String) (nextNode : FlowNode) : WalkerOut :=
  if nextNode.nodeType == "condition" || nextNode.nodeType == "delay" then
    match process_internal_node env.prims env.contexts nodes nextNodeId with
    | some pv =>
      { status := "success", next_node_id := some nextNodeId,
        processed_value := some pv }
    | none => { status := "error" }
  else
    if args.channel == "whatsapp" then
      let eff := Effect.processNodeCall (some args.current_node_id) (some nextNodeId)
        args.fallback_message args.is_validation_error
      if !env.dispatchOk then { status := "error", effects := [eff] }
      else
        if nextNode.nodeType == "message" then
          match detect_and_chain_nodes nodes env.edges nextNodeId nextNode with
          | some chainedId =>
            let rres := recur
              { matched_answer_id := args.matched_answer_id,
                current_node_id := chainedId, channel := args.channel }
            { rres with effects := eff :: rres.effects }
          | none =>
            { status := "success", next_node_id := some nextNodeId, effects := [eff] }
        else
          { status := "success", next_node_id := some nextNodeId, effects := [eff] }
    else
      { status := "success", next_node_id := some nextNodeId }

/-- `identify_and_process_node` (lines 39-459): load flow and edges,
determine the next node (validation retry, validation exit, explicit
node, or edge lookup from `matched_answer_id`/`current_node_id`), then
process it. The validation-exit branch (`is_validation_error` with no
node to process) only sends the fallback message with null node ids
(whatsapp; a no-op success elsewhere). Recursion (auto-chaining) is
bounded by fuel; exhausted fuel returns an error. -/
def identify_and_process_node (env : Env) : Nat → WalkerArgs → WalkerOut
  | 0, _ => { status := "error" }
  | fuel + 1, args =>
    match env.flow with
    | none => { status := "error" }
    | some nodes =>
      if env.edges.isEmpty then { status := "error" }
      else
        if args.is_validation_error then
          match args.node_id_to_process with
          | some nid =>
            match nodes.find? (fun n => n.id == nid) with
            | none => { status := "error" }
            | some nd =>
              walkerProcessNext env nodes (identify_and_process_node env fuel) args nid nd
          | none =>
            if args.channel == "whatsapp" then
              let eff := Effect.processNodeCall none none args.fallback_message true
              if env.dispatchOk then { status := "success", effects := [eff] }
              else { status := "error", effects := [eff] }
            else { status := "success" }
        else
          match args.node_id_to_process with
          | some nid =>
            match nodes.find? (fun n => n.id == nid) with
            | none => { status := "error" }
            | some nd =>
              walkerProcessNext env nodes (identify_and_process_node env fuel) args nid nd
          | none =>
            let source : String :=
              match args.matched_answer_id with
              | some m => if m != "" then m else args.current_node_id
              | none => args.current_node_id
            match resolve env.edges source with
            | none => { status := "error" }
            | some nid =>
              match nodes.find? (fun n => n.id == nid) with
              | none => { status := "error" }
              | some nd =>
                walkerProcessNext env nodes (identify_and_process_node env fuel) args nid nd

/-! ## Post-processing (`services/user_state_service.py`) -/

/-- Python truthiness of a `processed_value`: an empty branch id string
is falsy, the delay info dict is truthy. -/
def pvTruthy : Option ProcessedValue → Bool
  | none => false
  | some (ProcessedValue.branchId s) => s != ""
  | some (ProcessedValue.delayInfo _ _ _ _) => true

/-- The terminal-node check of `_handle_successful_node_processing`
(lines 899-909): a node with no outgoing edge is terminal. -/
def is_terminal_node (edges : List Edge) (nodeId : String) : Bool :=
  !(edges.any (fun e => e.source_node_id == nodeId))

/-- The saving path of `_update_delay_node_state` (lines 286-470):
update the validation state per the validation result, then persist the
user as in-automation on the delay node with its data stored (the Delay
row insert feeds the scheduler store, outside this user record). -/
def update_delay_node_state_save (u : StoredUser) (vstatus : Option String)
    (fallback : Option String) (flowId nodeId : String) (channel : String)
    (channelAccountId : Option String) : StoredUser :=
  let u1 :=
    match vstatus with
    | some vs =>
      if vs == "mismatch_retry" then
        update_validation_state u true fallback channel channelAccountId
      else
        update_validation_state u false none channel channelAccountId
    | none => u
  update_user_automation_state u1 true (some flowId) (some nodeId) channel
    channelAccountId (some nodeId)

/-- `_handle_successful_node_processing` (lines 704-991): resolve the
processed node; a `condition` node recurses through the walker on its
branch selector id, a `delay` node persists the delay state, a
user-input node updates validation (increment on `mismatch_retry`, reset
otherwise) and commits the advance, a terminal non-input node exits
automation, and a non-terminal non-input node recurses. Every error
return leaves the user row untouched. -/
def handle_successful_node_processing (env : Env) :
    Nat → StoredUser → String → String → String → Option String →
    Option String → Option String → Option ProcessedValue → StoredUser
  | 0, u, _, _, _, _, _, _, _ => u
  | fuel + 1, u, nextNodeId, flowId, channel, channelAccountId, vstatus, fallback, pv =>
    match env.flow with
    | none => u
    | some nodes =>
      match nodes.find? (fun n => n.id == nextNodeId) with
      | none => u
      | some nd =>
        if nd.nodeType == "condition" && pvTruthy pv then
          match pv with
          | some (ProcessedValue.branchId b) =>
            let w := identify_and_process_node env fuel
              { current_node_id := b, channel := channel }
            if w.status == "success" then
              match w.next_node_id with
              | some nnid =>
                handle_successful_node_processing env fuel u nnid flowId channel
                  channelAccountId vstatus fallback w.processed_value
              | none => u
            else u
          | _ => u
        else if nd.nodeType == "delay" && pvTruthy pv then
          update_delay_node_state_save u vstatus fallback flowId nextNodeId channel
            channelAccountId
        else
          let isUserInput : Bool :=
            match env.node_details.find? (fun d => d.node_id == nd.nodeType) with
            | some d => d.user_input_required
            | none =>
              nd.nodeType == "button_question" || nd.nodeType == "list_question"
                || nd.nodeType == "question" || nd.nodeType == "trigger_template"
          let isDelay : Bool := nd.nodeType == "delay"
          if isUserInput || isDelay then
            let u1 :=
              match vstatus with
              | some vs =>
                if vs == "mismatch_retry" then
                  update_validation_state u true fallback channel channelAccountId
                else
                  update_validation_state u false none channel channelAccountId
              | none => u
            update_user_automation_state u1 true (some flowId) (some nextNodeId)
              channel channelAccountId none
          else
            if is_terminal_node env.edges nextNodeId then
              update_user_automation_state u false none none channel
                channelAccountId none
            else
              let w := identify_and_process_node env fuel
                { current_node_id := nextNodeId, channel := channel }
              if w.status == "success" then
                match w.next_node_id with
                | some nnid =>
                  handle_successful_node_processing env fuel u nnid flowId channel
                    channelAccountId none none w.processed_value
                | none => u
              else u

/-! ## Orchestrator: in-automation reply handling
(`services/user_state_service.py` lines 77-263 and 1515-1599) -/

/-- Result of the orchestrator's user-input-reply path: the committed
user row, the effects emitted, and an outcome tag. -/
structure OrchResult where
  user : StoredUser
  effects : List Effect
  outcome : String
  deriving Repr, DecidableEq

/-- The parameter block `_process_validation_and_get_node_service_params`
hands to the walker (lines 192-263). -/
structure NodeServiceParams where
  is_validation_error : Bool
  fallback_message : Option String
  node_id_to_process : Option String
  current_node_id_for_service : Option String
  deriving Repr, DecidableEq

/-- The non-exit part of `_process_validation_and_get_node_service_params`
(lines 192-263): `matched` advances from the matched answer id (an empty
or missing one is an error), `matched_other_node` processes that node,
`mismatch_retry` retries the current node as a validation error with the
fallback, everything else follows the default edge. -/
def process_validation_params (u : StoredUser) (vr : ValidateReplyResult) :
    NodeServiceParams :=
  { is_validation_error := vr.status == "mismatch_retry"
    fallback_message :=
      if vr.status == "mismatch_retry" then vr.fallback_message else none
    node_id_to_process :=
      if vr.status == "matched_other_node" then vr.matched_node_id
      else if vr.status == "mismatch_retry" then u.current_node_id
      else none
    current_node_id_for_service :=
      if vr.status == "matched" then
        match vr.matched_answer_id with
        | some m => if m != "" then some m else none
        | none => none
      else u.current_node_id }

/-- `_process_validation_and_get_node_service_params` composed with the
caller (lines 1515-1599): a `validation_exit` result only invokes the
walker in its fallback-sending mode and returns early without touching
the user row; other results map to walker parameters exactly as the
source does, and only a successful walker call with a next node reaches
`_handle_successful_node_processing` (which performs the store writes). -/
def handle_user_input_reply (env : Env) (fuel : Nat) (u : StoredUser)
    (vr : ValidateReplyResult) (flowId channel : String) : OrchResult :=
  if vr.status == "validation_exit" then
    let w := identify_and_process_node env fuel
      { is_validation_error := true, fallback_message := vr.fallback_message,
        current_node_id := u.current_node_id.getD "", channel := channel }
    { user := u, effects := w.effects, outcome := "handled_validation_exit" }
  else
    let p := process_validation_params u vr
    match p.current_node_id_for_service with
    | none => { user := u, effects := [], outcome := "error_no_current_node" }
    | some cns =>
      let w := identify_and_process_node env fuel
        { is_validation_error := p.is_validation_error,
          fallback_message := p.fallback_message,
          node_id_to_process := p.node_id_to_process, current_node_id := cns,
          channel := channel }
      if w.status == "success" then
        match w.next_node_id with
        | some nid =>
          let u2 := handle_successful_node_processing env fuel u nid flowId channel
            u.channel_account_id (some vr.status) p.fallback_message w.processed_value
          { user := u2, effects := w.effects, outcome := "processed" }
        | none => { user := u, effects := w.effects, outcome := "success_no_next" }
      else { user := u, effects := w.effects, outcome := "node_service_failed" }

/-- Webhook Intake around the in-automation reply path
(`services/webhook_service.py` lines 191-237):
`check_and_process_user_with_flow` wraps its whole body in a catch-all
(user_state_service.py lines 1665-1669) and so never raises; on return
the audit row status is set to `"processed"` unconditionally (lines
203-205). The `"error"` status is written only by the exception handler
(lines 239-286), which a failed walker dispatch cannot reach. Returns
the committed user row and the final audit status. -/
def process_webhook_message_in_automation (env : Env) (fuel : Nat)
    (u : StoredUser) (vr : ValidateReplyResult) (flowId channel : String) :
    StoredUser × String :=
  let r := handle_user_input_reply env fuel u vr flowId channel
  (r.user, "processed")

/-! ## Delay Scheduler (`services/delay_scheduler_service.py`,
`database/flow_db.py`) -/

/-- A delay row as the scheduler reads it (`models/delay_data.py`);
`delay_completes_at` is seconds since an epoch. -/
structure DelayRow where
  id : String
  user_identifier : String
  processed : Bool
  delay_completes_at : Int
  deriving Repr, DecidableEq

/-- `FlowDB.get_pending_delays` (flow_db.py lines 1079-1102): rows with
`processed = false` and `delay_completes_at <= now`. -/
def get_pending_delays (now : Int) (rows : List DelayRow) : List DelayRow :=
  rows.filter (fun d => !d.processed && decide (d.delay_completes_at ≤ now))

/-- `FlowDB.mark_delay_as_processed` (flow_db.py lines 1104-1129). -/
def mark_delay_as_processed (rows : List DelayRow) (delayId : String) : List DelayRow :=
  rows.map (fun d => if d.id == delayId then { d with processed := true } else d)

/-- The possible results of `WebhookService.process_webhook_message` as
seen by the scheduler: the service catches every exception internally
(webhook_service.py lines 239-286) and returns a status dict, so the call
returns normally even when delivery fails downstream. -/
inductive WebhookOutcome
  | success
  | errorResult (msg : String)
  deriving Repr, DecidableEq

/-- What a single `_trigger_delay_complete_webhook` run did. -/
inductive DeliveryReport
  | noWebhookService
  | userNotFound
  | delivered (r : WebhookOutcome)
  deriving Repr, DecidableEq

/-- Collaborators of the scheduler: whether the webhook service is wired,
the user lookup, and the intake outcome per delay id. -/
structure SchedulerEnv where
  webhookServiceUp : Bool := true
  userFound : String → Bool := fun _ => true
  webhookResult : String → WebhookOutcome := fun _ => WebhookOutcome.success

/-- `_trigger_delay_complete_webhook` (lines 136-196): a missing webhook
service or user short-circuits with a logged return; otherwise the
synthetic `delay_complete` event is handed to Intake and the result —
success or error — is only logged. Every path returns normally. -/
def trigger_delay_complete_webhook (senv : SchedulerEnv) (d : DelayRow) : DeliveryReport :=
  if !senv.webhookServiceUp then DeliveryReport.noWebhookService
  else if !(senv.userFound d.user_identifier) then DeliveryReport.userNotFound
  else DeliveryReport.delivered (senv.webhookResult d.id)

/-- `_process_expired_delays` (lines 94-134): fetch the due rows, then
for each one trigger the synthetic webhook and mark the row processed.
The per-delay `except` branch is unreachable in this model because the
trigger helper returns normally on every delivery outcome. Returns the
delay store after the pass and the delivery reports in order. -/
def process_expired_delays (senv : SchedulerEnv) (now : Int)
    (rows : List DelayRow) : List DelayRow × List (String × DeliveryReport) :=
  (get_pending_delays now rows).foldl
    (fun acc d =>
      let rep := trigger_delay_complete_webhook senv d
      (mark_delay_as_processed acc.1 d.id, acc.2 ++ [(d.id, rep)]))
    (rows, [])

/-! ## Channel Adapter (`services/channel_message_adapter.py`) -/

/-- A JSON-ish payload value: the adapters read string leaves and nested
dicts. -/
inductive PyVal
  | str (s : String)
  | obj (fields : List (String × PyVal))

/-- A payload dict. -/
abbrev PyDict := List (String × PyVal)

/-- Python `d.get(k)` on a payload dict. -/
def pyDictGet (d : PyDict) (k : String) : Option PyVal :=
  (d.find? (fun p => p.1 == k)).map (fun p => p.2)

/-- Python `d.get(k, default)` for a string-typed leaf; the adapters are
modeled on payloads whose leaves are strings. -/
def pyValStr (v : Option PyVal) (dflt : String) : String :=
  match v with
  | some (PyVal.str s) => s
  | _ => dflt

/-- Python `d.get(k, default-dict)` for a dict-typed value. -/
def pyValObj (v : Option PyVal) : PyDict :=
  match v with
  | some (PyVal.obj f) => f
  | _ => []

/-- `NormalizedMessage` (lines 9-45): its `__init__` accepts exactly the
fields `user_reply`, `media_url` and `media_type`. -/
structure NormalizedMessage where
  user_reply : Option String := none
  media_url : Option String := none
  media_type : Option String := none
  deriving Repr, DecidableEq

/-- The exception raised when a parser passes `raw_data=` to
`NormalizedMessage.__init__`, which has no such parameter. -/
def rawDataTypeError : String :=
  "TypeError: __init__ got an unexpected keyword argument raw_data"

/-- `_normalize_whatsapp` (lines 103-141): text body, button text or
payload, interactive button/list reply title or id, or the media url,
type and caption. -/
def normalize_whatsapp (messageType : String) (body : PyDict) : NormalizedMessage :=
  if messageType == "text" then
    if pyValStr (pyDictGet body "type") "" == "text" && (pyDictGet body "text").isSome then
      { user_reply := some (pyStrip
          (pyValStr (pyDictGet (pyValObj (pyDictGet body "text")) "body") "")) }
    else {}
  else if messageType == "button" then
    if pyValStr (pyDictGet body "type") "" == "button" && (pyDictGet body "button").isSome then
      let buttonData := pyValObj (pyDictGet body "button")
      { user_reply := some (pyStrip (pyValStr (pyDictGet buttonData "text")
          (pyValStr (pyDictGet buttonData "payload") ""))) }
    else {}
  else if messageType == "interactive" then
    let interactiveData := pyValObj (pyDictGet body "interactive")
    let itype := pyValStr (pyDictGet interactiveData "type") ""
    if itype == "button_reply" then
      let br := pyValObj (pyDictGet interactiveData "button_reply")
      { user_reply := some (pyStrip (pyValStr (pyDictGet br "title")
          (pyValStr (pyDictGet br "id") ""))) }
    else if itype == "list_reply" then
      let lr := pyValObj (pyDictGet interactiveData "list_reply")
      { user_reply := some (pyStrip (pyValStr (pyDictGet lr "title")
          (pyValStr (pyDictGet lr "id") ""))) }
    else {}
  else if messageType == "image" || messageType == "video"
      || messageType == "audio" || messageType == "document" then
    let mediaData := pyValObj (pyDictGet body messageType)
    let url : Option String :=
      let u := pyValStr (pyDictGet mediaData "url") ""
      if u != "" then some u
      else
        let l := pyValStr (pyDictGet mediaData "link") ""
        if l != "" then some l else none
    let caption := pyStrip (pyValStr (pyDictGet mediaData "caption") "")
    { user_reply := if caption != "" then some caption else none,
      media_url := url, media_type := some messageType }
  else {}

/-- `_normalize_email` (lines 143-153): the user reply would be the
stripped subject, else the stripped body or text — but the result
constructor is called with `raw_data=message_body`, a keyword
`NormalizedMessage.__init__` does not accept, so the parser raises
`TypeError` for every payload. -/
def normalize_email (body : PyDict) : Except String NormalizedMessage :=
  let subject := pyStrip (pyValStr (pyDictGet body "subject") "")
  let bodyText :=
    let b := pyStrip (pyValStr (pyDictGet body "body") "")
    if b != "" then b else pyStrip (pyValStr (pyDictGet body "text") "")
  let _userReply : Option String :=
    if subject != "" then some subject
    else if bodyText != "" then some bodyText else none
  Except.error rawDataTypeError

/-- `_normalize_telegram` (lines 155-171): `message.text`, or
`callback_query.data` for callback queries — the constructor call at
lines 168-171 also passes `raw_data` and raises `TypeError`. -/
def normalize_telegram (messageType : String) (body : PyDict) : Except String NormalizedMessage :=
  let message : PyDict :=
    match pyDictGet body "message" with
    | some (PyVal.obj f) => f
    | some (PyVal.str _) => []
    | none => body
  let baseReply := pyStrip (pyValStr (pyDictGet message "text") "")
  let _userReply : Option String :=
    if messageType == "callback_query" then
      let cb := pyStrip (pyValStr (pyDictGet (pyValObj (pyDictGet body "callback_query")) "data") "")
      if cb != "" then some cb else none
    else if baseReply != "" then some baseReply else none
  Except.error rawDataTypeError

/-- `_normalize_sms` (lines 173-180): `text`, `body` or `message` — the
constructor call at lines 177-180 passes `raw_data` and raises. -/
def normalize_sms (body : PyDict) : Except String NormalizedMessage :=
  let raw := pyValStr (pyDictGet body "text")
    (pyValStr (pyDictGet body "body") (pyValStr (pyDictGet body "message") ""))
  let _userReply : Option String :=
    if pyStrip raw != "" then some (pyStrip raw) else none
  Except.error rawDataTypeError

/-- `_normalize_instagram` (lines 182-195): `text` or `message.text` —
the constructor call at lines 192-195 passes `raw_data` and raises. -/
def normalize_instagram (body : PyDict) : Except String NormalizedMessage :=
  let _userReply : Option String :=
    match pyDictGet body "text" with
    | some (PyVal.str s) => if pyStrip s != "" then some (pyStrip s) else none
    | _ =>
      match pyDictGet body "message" with
      | some (PyVal.obj f) =>
        let t := pyStrip (pyValStr (pyDictGet f "text") "")
        if t != "" then some t else none
      | _ => none
  Except.error rawDataTypeError

/-- `_normalize_facebook` (lines 197-213): `message.text`, or the
postback title or payload — the constructor call at lines 210-213 passes
`raw_data` and raises. -/
def normalize_facebook (messageType : String) (body : PyDict) : Except String NormalizedMessage :=
  let message := pyValObj (pyDictGet body "message")
  let baseReply := pyStrip (pyValStr (pyDictGet message "text") "")
  let _userReply : Option String :=
    if messageType == "postback" then
      let pb := pyValObj (pyDictGet body "postback")
      let t := pyStrip (pyValStr (pyDictGet pb "title") (pyValStr (pyDictGet pb "payload") ""))
      if t != "" then some t else none
    else if baseReply != "" then some baseReply else none
  Except.error rawDataTypeError

/-- `_normalize_generic` (lines 215-235): first of `text`, `body`,
`message`, `content` (descending into a dict value); this parser uses the
plain constructor and succeeds. -/
def normalize_generic (body : PyDict) : NormalizedMessage :=
  let firstTruthy : Option PyVal :=
    match pyDictGet body "text" with
    | some (PyVal.str s) => if s != "" then some (PyVal.str s) else loop1 body
    | some (PyVal.obj f) => some (PyVal.obj f)
    | none => loop1 body
  match firstTruthy with
  | some (PyVal.str s) =>
    if pyStrip s != "" then { user_reply := some (pyStrip s) } else {}
  | some (PyVal.obj f) =>
    let inner := pyValStr (pyDictGet f "text") (pyValStr (pyDictGet f "body") "")
    if inner != "" && pyStrip inner != "" then { user_reply := some (pyStrip inner) }
    else {}
  | none => {}
where
  loop1 (body : PyDict) : Option PyVal :=
    match pyDictGet body "body" with
    | some (PyVal.str s) => if s != "" then some (PyVal.str s) else loop2 body
    | some (PyVal.obj f) => some (PyVal.obj f)
    | none => loop2 body
  loop2 (body : PyDict) : Option PyVal :=
    match pyDictGet body "message" with
    | some (PyVal.str s) => if s != "" then some (PyVal.str s) else loop3 body
    | some (PyVal.obj f) => some (PyVal.obj f)
    | none => loop3 body
  loop3 (body : PyDict) : Option PyVal :=
    match pyDictGet body "content" with
    | some (PyVal.str s) => if s != "" then some (PyVal.str s) else none
    | some (PyVal.obj f) => some (PyVal.obj f)
    | none => none

/-- `normalize_message` (lines 57-101): the synthetic message types are
recognized first for any channel (their custom payloads carry
`user_state_id` / `flow_id`, no reply fields); then the per-channel
parser runs; unknown channels use the generic parser. -/
def normalize_message (channel messageType : String) (body : PyDict) :
    Except String NormalizedMessage :=
  if messageType == "delay_complete" then Except.ok {}
  else if messageType == "scheduled_trigger" then Except.ok {}
  else
    let c := pyLower channel
    if c == "whatsapp" then Except.ok (normalize_whatsapp messageType body)
    else if c == "gmail" || c == "email" then normalize_email body
    else if c == "telegram" then normalize_telegram messageType body
    else if c == "sms" then normalize_sms body
    else if c == "instagram" then normalize_instagram body
    else if c == "facebook" then normalize_facebook messageType body
    else Except.ok (normalize_generic body)

/-! ## Flow status API (`apis/flow_api.py`, `services/flow_service.py`,
`database/flow_db.py`) -/

/-- The `POST /flow/status/(flow_id)` handler (flow_api.py lines 85-114)
composed with the flow store. `services/flow_service.py` defines no
`update_flow_status` method (its methods are `create_flow`,
`get_flows_list`, `get_flow_detail`, `update_flow` and
`check_and_get_flow_for_trigger`), so the call at line 106 raises
`AttributeError`, mapped to HTTP 500 by the generic handler at lines
112-114; the store mutator `FlowDB.update_flow_status` (flow_db.py lines
344-370, which accepts any status value including `draft`) is never
reached. Returns the HTTP status code and the stored flow status after
the request. -/
def update_flow_status_endpoint (xUserId : Option String)
    (bodyStatus : Option String) (storeStatus : String) : Nat × String :=
  match xUserId with
  | none => (401, storeStatus)
  | some uid =>
    match pyParseInt uid with
    | none => (500, storeStatus)
    | some _ =>
      if !(pyTruthy bodyStatus) then (400, storeStatus)
      else (500, storeStatus)

/-! ## Fixtures for witnesses and counterexamples -/

/-- A text question fixture with no `answerValidation` (every reply is
accepted) capturing into `@x`. -/
def plainQuestionFixture : FlowNode where
  id := "q1"
  nodeType := "question"
  userInputVariable := "@x"

/-- A condition node fixture: the single condition `@x Equal v` with
operator `None` and the two branch selector ids. -/
def conditionNodeFixture (v : String) : FlowNode where
  id := "cond1"
  nodeType := "condition"
  flowNodeConditions := [{ variableName := "@x", flowConditionType := "Equal", value := v }]
  conditionResult := [{ id := "cond1__true" }, { id := "cond1__false" }]
  conditionOperator := "None"

/-- A message node fixture. -/
def messageNodeFixture (i : String) : FlowNode where
  id := i
  nodeType := "message"

/-- An in-automation user sitting at question `q1` of flow `flow1` with a
spent validation counter. -/
def userAtQuestionFixture : StoredUser where
  is_in_automation := true
  current_flow_id := some "flow1"
  current_node_id := some "q1"
  validation := { failed := true, failure_count := 3, failure_message := some "Pick one." }

/-- A walker environment over the flow `q1 -> m1` with a working
dispatch. -/
def envQuestionFlowFixture : Env where
  flow := some [plainQuestionFixture, messageNodeFixture "m1"]
  edges := [{ source_node_id := "q1", target_node_id := "m1" }]
  node_details := [{ node_id := "question", user_input_required := true },
    { node_id := "message", user_input_required := false }]

/-- The same flow with the outbound node-process RPC failing. -/
def envDispatchFailFixture : Env where
  flow := some [plainQuestionFixture, messageNodeFixture "m1"]
  edges := [{ source_node_id := "q1", target_node_id := "m1" }]
  node_details := [{ node_id := "question", user_input_required := true },
    { node_id := "message", user_input_required := false }]
  dispatchOk := false

/-- A `validation_exit` outcome carrying a fallback message. -/
def vrExitFixture : ValidateReplyResult where
  status := "validation_exit"
  fallback_message := some "Pick one."

/-- An environment whose flow is the single terminal message node `m2`
(no outgoing edges). -/
def envTerminalFixture : Env where
  flow := some [messageNodeFixture "m2"]
  edges := []
  node_details := [{ node_id := "message", user_input_required := false }]

/-- An in-automation user about to process terminal node `m2`. -/
def userAtTerminalFixture : StoredUser where
  is_in_automation := true
  current_flow_id := some "flow-1"
  current_node_id := some "m2"

/-- A scheduler environment whose intake reports a failed delivery for
every delay. -/
def senvDeliveryFailsFixture : SchedulerEnv where
  webhookResult := fun _ => WebhookOutcome.errorResult "downstream failed"

/-- A due, unprocessed delay row. -/
def delayRowFixture : DelayRow where
  id := "d1"
  user_identifier := "u1"
  processed := false
  delay_completes_at := 10

end AgentFlow

namespace AgentFlow

/-- Helper: the source scanning loop computes the first stored trigger
satisfying the spec-side match predicate. -/
theorem checkTriggersLoop_eq_find (messageType text : String)
    (triggers : List FlowTrigger) :
    checkTriggersLoop messageType text triggers =
      (triggers.find? (specTriggerMatches messageType text)).map
        (fun t => (t.flow_id, t.node_id)) := by
  induction triggers with
  | nil => simp [checkTriggersLoop]
  | cons t ts ih =>
    by_cases hk : (t.trigger_type == "keyword") = true
    · have htempl : (t.trigger_type == "template") = false := by
        have hkv := of_decide_eq_true hk
        simp [hkv]
      by_cases hmt : (messageType == "text") = true
      · by_cases hv : (t.trigger_values.any (fun k => ciSubstring k text)) = true
        · simp [checkTriggersLoop, hk, hmt, hv, List.find?, specTriggerMatches, htempl]
        · simp [checkTriggersLoop, hk, hmt, hv, List.find?, specTriggerMatches, htempl, ih]
      · simp [checkTriggersLoop, hk, hmt, htempl, List.find?, specTriggerMatches, ih]
    · by_cases ht : (t.trigger_type == "template") = true
      · by_cases hv : (t.trigger_values.any (fun v => ciEqual v text)) = true
        · simp [checkTriggersLoop, hk, ht, hv, List.find?, specTriggerMatches]
        · simp [checkTriggersLoop, hk, ht, hv, List.find?, specTriggerMatches, ih]
      · simp [checkTriggersLoop, hk, ht, List.find?, specTriggerMatches, ih]

/-- C1: the Trigger Matcher returns the first stored trigger matched under
the spec's keyword/substring and template/equality readings, and an empty
or missing trimmed user reply yields no match; as a total function of the
trigger table and the normalized input, the result is deterministic. -/
theorem trigger_matcher_first_stored_match (triggers : List FlowTrigger)
    (messageType : String) (userReply : Option String) :
    check_and_get_flow_for_trigger triggers messageType userReply =
      (if (pyStrip (userReply.getD "") == "") = true then none
       else (triggers.find? (specTriggerMatches messageType (pyStrip (userReply.getD "")))).map
         (fun t => (t.flow_id, t.node_id))) := by
  unfold check_and_get_flow_for_trigger
  by_cases h : (pyStrip (userReply.getD "") == "") = true
  · simp [h]
  · simp [h, checkTriggersLoop_eq_find]

/-- Helper: the source's `max_fallback_count` computation agrees with the
spec-side failsCount reading. -/
theorem maxFallbackCount_eq_specFailsCount (avOpt : Option AnswerValidation) :
    maxFallbackCount avOpt = specFailsCount avOpt := by
  cases avOpt with
  | none => rfl
  | some av =>
    cases hfc : av.failsCount with
    | none =>
      simp [maxFallbackCount, specFailsCount, hfc, Option.getD]
      decide
    | some s =>
      by_cases hs : s = ""
      · simp [maxFallbackCount, specFailsCount, hfc, hs, Option.getD]
      · simp [maxFallbackCount, specFailsCount, hfc, hs, Option.getD]

/-- Helper: the source's fallback-message computation agrees with the
spec-side fallback reading. -/
theorem fallbackMessageOf_eq_specFallbackMessage (avOpt : Option AnswerValidation) :
    fallbackMessageOf avOpt = specFallbackMessage avOpt := by
  cases avOpt with
  | none => rfl
  | some av =>
    by_cases hblank : pyStrip av.fallback = ""
    · have hfe : (av.fallback != "" && pyStrip av.fallback != "") = false := by
        simp [hblank]
      simp [fallbackMessageOf, specFallbackMessage, hblank, hfe]
    · have hne : av.fallback ≠ "" := by
        intro hcontra
        apply hblank
        rw [hcontra]
        decide
      simp [fallbackMessageOf, specFallbackMessage, hblank, hne]

/-- C2: for a text question (`is_text = true`) with a declared
`userInputVariable` and a nonempty reply, validation success persists the
reply under that variable and returns `use_default_edge`; validation
failure returns `validation_exit` with the fallback message when the
current count has reached `failsCount` (default 3), and `mismatch_retry`
with the fallback message otherwise, persisting nothing. -/
theorem text_question_validation_outcomes (prims : PyPrims) (node : FlowNode)
    (userReply : String) (count : Int)
    (hq : node.nodeType = "question") (hvar : node.userInputVariable ≠ "")
    (hr : userReply ≠ "") :
    (validationPassed prims node.answerValidation userReply = true →
      validate_and_match_reply_is_text prims node userReply count =
        { status := "use_default_edge",
          savedVariable := some (node.userInputVariable, userReply) }) ∧
    (validationPassed prims node.answerValidation userReply = false →
      (specFailsCount node.answerValidation ≤ count →
        validate_and_match_reply_is_text prims node userReply count =
          { status := "validation_exit",
            fallback_message := some (specFallbackMessage node.answerValidation) }) ∧
      (count < specFailsCount node.answerValidation →
        validate_and_match_reply_is_text prims node userReply count =
          { status := "mismatch_retry",
            fallback_message := some (specFallbackMessage node.answerValidation) })) := by
  have hmatch : process_reply_match node userReply = none := by
    simp [process_reply_match, hq]
  refine ⟨fun hpass => ?_, fun hfail => ⟨fun hge => ?_, fun hlt => ?_⟩⟩
  · simp [validate_and_match_reply_is_text, hr, hmatch, hpass, hvar]
  · have hge' : maxFallbackCount node.answerValidation ≤ count := by
      rw [maxFallbackCount_eq_specFailsCount]
      exact hge
    simp [validate_and_match_reply_is_text, hr, hmatch, hfail, hge',
      fallbackMessageOf_eq_specFallbackMessage]
  · have hlt' : ¬ maxFallbackCount node.answerValidation ≤ count := by
      rw [maxFallbackCount_eq_specFailsCount]
      omega
    simp [validate_and_match_reply_is_text, hr, hmatch, hfail, hlt',
      fallbackMessageOf_eq_specFallbackMessage]

/-- Witness for C2: a phone-validated question node, reply `"abc"`,
count 0 — validation fails and within the cap the result is a
mismatch-retry with the default fallback, with nothing persisted. -/
theorem text_question_validation_outcomes_witness :
    phoneQuestionFixture.nodeType = "question" ∧
      phoneQuestionFixture.userInputVariable ≠ "" ∧ ("abc" : String) ≠ "" ∧
      validationPassed pyPrimsFixture phoneQuestionFixture.answerValidation "abc" = false ∧
      (0 : Int) < specFailsCount phoneQuestionFixture.answerValidation ∧
      validate_and_match_reply_is_text pyPrimsFixture phoneQuestionFixture "abc" 0 =
        { status := "mismatch_retry",
          fallback_message := some "This is not the valid response. Please try again below" } := by
  refine ⟨rfl, by decide, by decide, by decide, by decide, ?_⟩
  have h := ((text_question_validation_outcomes pyPrimsFixture phoneQuestionFixture "abc" 0
      rfl (by decide) (by decide)).2 (by decide)).2 (by decide)
  rw [h]
  decide

/-- C5 counterexample: with two stored edges sharing `source_node_id = "s"`
the walker's resolution still returns a target (the first edge's), although
there is not exactly one matching edge — refuting the claim that a target
is returned iff exactly one edge carries that source id. -/
theorem resolve_returns_first_despite_duplicate_sources :
    resolve [⟨"s", "a"⟩, ⟨"s", "b"⟩] "s" = some "a" ∧
      (List.filter (fun e => e.source_node_id == "s")
        [Edge.mk "s" "a", Edge.mk "s" "b"]).length = 2 := by
  constructor
  · rfl
  · rfl

/-- Helper: every effect a validation-exit walker run emits is the
fallback send with null node ids. -/
theorem walker_validation_exit_effects (env : Env) (fuel : Nat)
    (fallback : Option String) (cn channel : String) :
    ∀ e ∈ (identify_and_process_node env fuel
        { is_validation_error := true, fallback_message := fallback,
          current_node_id := cn, channel := channel }).effects,
      e = Effect.processNodeCall none none fallback true := by
  cases fuel with
  | zero => simp [identify_and_process_node]
  | succ n =>
    cases hfl : env.flow with
    | none => simp [identify_and_process_node, hfl]
    | some nodes =>
      by_cases he : env.edges.isEmpty
      · simp [identify_and_process_node, hfl, he]
      · by_cases hch : (channel == "whatsapp") = true
        · by_cases hd : env.dispatchOk
          · simp [identify_and_process_node, hfl, he, hch, hd]
          · simp [identify_and_process_node, hfl, he, hch, hd]
        · simp [identify_and_process_node, hfl, he, hch]

/-- C3: for a `validation_exit` outcome the orchestrator leaves the user
row untouched — `is_in_automation`, `current_flow_id`, `current_node_id`
and `validation.failure_count` included — returns early, and every
effect it emits is the walker's fallback send with null node ids. -/
theorem validation_exit_only_emits_fallback (env : Env) (fuel : Nat)
    (u : StoredUser) (vr : ValidateReplyResult) (flowId channel : String)
    (hexit : vr.status = "validation_exit") :
    (handle_user_input_reply env fuel u vr flowId channel).user = u ∧
      (handle_user_input_reply env fuel u vr flowId channel).outcome =
        "handled_validation_exit" ∧
      ∀ e ∈ (handle_user_input_reply env fuel u vr flowId channel).effects,
        e = Effect.processNodeCall none none vr.fallback_message true := by
  have hst : (vr.status == "validation_exit") = true := by simp [hexit]
  refine ⟨by simp [handle_user_input_reply, hst], by simp [handle_user_input_reply, hst], ?_⟩
  intro e he
  simp only [handle_user_input_reply, hst, if_true] at he
  exact walker_validation_exit_effects env fuel vr.fallback_message
    (u.current_node_id.getD "") channel e he

/-- Witness for C3: the fixture exit outcome against the `q1 -> m1` flow
leaves the stored user intact and emits exactly the null-id fallback
send. -/
theorem validation_exit_only_emits_fallback_witness :
    (handle_user_input_reply envQuestionFlowFixture 3 userAtQuestionFixture
        vrExitFixture "flow1" "whatsapp").user = userAtQuestionFixture ∧
      (handle_user_input_reply envQuestionFlowFixture 3 userAtQuestionFixture
        vrExitFixture "flow1" "whatsapp").effects =
        [Effect.processNodeCall none none (some "Pick one.") true] := by
  have h := validation_exit_only_emits_fallback envQuestionFlowFixture 3
    userAtQuestionFixture vrExitFixture "flow1" "whatsapp" rfl
  exact ⟨h.1, by decide⟩

/-- C4 counterexample: committing the terminal message node `m2` for a
user whose row holds `current_flow_id = "flow-1"`,
`current_node_id = "m2"` sets `is_in_automation := false` but leaves both
ids at their previous non-null values, refuting the claim that they are
nulled. -/
theorem terminal_commit_preserves_previous_ids :
    (handle_successful_node_processing envTerminalFixture 1 userAtTerminalFixture
        "m2" "flow-1" "whatsapp" none none none none).is_in_automation = false ∧
      (handle_successful_node_processing envTerminalFixture 1 userAtTerminalFixture
        "m2" "flow-1" "whatsapp" none none none none).current_flow_id = some "flow-1" ∧
      (handle_successful_node_processing envTerminalFixture 1 userAtTerminalFixture
        "m2" "flow-1" "whatsapp" none none none none).current_node_id = some "m2" := by
  refine ⟨?_, ?_, ?_⟩ <;> rfl

/-- C4 amended: post-processing a non-user-input, non-delay node with no
outgoing edges commits `is_in_automation = false` and clears
`delay_node_data`, but — because the store mutator only writes fields
passed non-null — `current_flow_id` and `current_node_id` keep their
previous values, and the validation state is untouched. -/
theorem terminal_node_commit_fields (env : Env) (fuel : Nat) (u : StoredUser)
    (nextNodeId flowId channel : String) (caid : Option String)
    (vstatus fallback : Option String) (pv : Option ProcessedValue)
    (nodes : List FlowNode) (nd : FlowNode) (det : NodeDetail)
    (hflow : env.flow = some nodes)
    (hfind : nodes.find? (fun n => n.id == nextNodeId) = some nd)
    (hnc : nd.nodeType ≠ "condition") (hndel : nd.nodeType ≠ "delay")
    (hdet : env.node_details.find? (fun d => d.node_id == nd.nodeType) = some det)
    (hni : det.user_input_required = false)
    (hterm : is_terminal_node env.edges nextNodeId = true) :
    handle_successful_node_processing env (fuel + 1) u nextNodeId flowId channel
        caid vstatus fallback pv =
      update_user_automation_state u false none none channel caid none ∧
    (handle_successful_node_processing env (fuel + 1) u nextNodeId flowId channel
        caid vstatus fallback pv).is_in_automation = false ∧
    (handle_successful_node_processing env (fuel + 1) u nextNodeId flowId channel
        caid vstatus fallback pv).current_flow_id = u.current_flow_id ∧
    (handle_successful_node_processing env (fuel + 1) u nextNodeId flowId channel
        caid vstatus fallback pv).current_node_id = u.current_node_id ∧
    (handle_successful_node_processing env (fuel + 1) u nextNodeId flowId channel
        caid vstatus fallback pv).validation = u.validation ∧
    (handle_successful_node_processing env (fuel + 1) u nextNodeId flowId channel
        caid vstatus fallback pv).delay_node_data = none := by
  have hc : (nd.nodeType == "condition") = false := by simp [hnc]
  have hd : (nd.nodeType == "delay") = false := by simp [hndel]
  have hmain : handle_successful_node_processing env (fuel + 1) u nextNodeId flowId
      channel caid vstatus fallback pv =
      update_user_automation_state u false none none channel caid none := by
    simp [handle_successful_node_processing, hflow, hfind, hc, hd, hdet, hni, hterm]
  refine ⟨hmain, ?_, ?_, ?_, ?_, ?_⟩ <;>
    simp [hmain, update_user_automation_state]

/-- Witness for C4: the concrete terminal commit equals the store update
with null ids, which keeps the previous values. -/
theorem terminal_node_commit_fields_witness :
    handle_successful_node_processing envTerminalFixture 1 userAtTerminalFixture
        "m2" "flow-1" "whatsapp" none none none none =
      update_user_automation_state userAtTerminalFixture false none none
        "whatsapp" none none :=
  (terminal_node_commit_fields envTerminalFixture 0 userAtTerminalFixture "m2"
    "flow-1" "whatsapp" none none none none [messageNodeFixture "m2"]
    (messageNodeFixture "m2") { node_id := "message", user_input_required := false }
    rfl (by decide) (by decide) (by decide) rfl rfl (by decide)).1

/-- Helper: the scheduler pass is a map over the store marking the due
ids, paired with one delivery report per due delay. -/
theorem process_expired_delays_foldl (senv : SchedulerEnv) (ps : List DelayRow) :
    ∀ (rows : List DelayRow) (reports : List (String × DeliveryReport)),
      ps.foldl
          (fun acc d =>
            (mark_delay_as_processed acc.1 d.id,
              acc.2 ++ [(d.id, trigger_delay_complete_webhook senv d)]))
          (rows, reports) =
        (rows.map (fun r =>
            if ps.any (fun d => r.id == d.id) then { r with processed := true } else r),
          reports ++ ps.map (fun d => (d.id, trigger_delay_complete_webhook senv d))) := by
  induction ps with
  | nil =>
    intro rows reports
    simp
  | cons d ds ih =>
    intro rows reports
    rw [List.foldl_cons, ih]
    simp only [Prod.mk.injEq, List.map_cons]
    constructor
    · unfold mark_delay_as_processed
      rw [List.map_map]
      apply List.map_congr_left
      intro r _
      by_cases h1 : (r.id == d.id) = true
      · by_cases h2 : (ds.any fun d2 => r.id == d2.id) = true
        · simp [Function.comp, h1, h2, List.any_cons]
        · simp [Function.comp, h1, h2, List.any_cons]
      · simp [Function.comp, h1, List.any_cons]
    · simp

/-- Helper: closed form of a scheduler pass. -/
theorem process_expired_delays_eq (senv : SchedulerEnv) (now : Int)
    (rows : List DelayRow) :
    process_expired_delays senv now rows =
      (rows.map (fun r =>
          if (get_pending_delays now rows).any (fun d => r.id == d.id) then
            { r with processed := true }
          else r),
        (get_pending_delays now rows).map
          (fun d => (d.id, trigger_delay_complete_webhook senv d))) := by
  unfold process_expired_delays
  rw [process_expired_delays_foldl]
  simp

/-- C6 amended: a scheduler pass attempts delivery for every due delay
and then marks it `processed = true` regardless of the reported delivery
outcome (the delivery helper catches a missing service, a missing user
and error results internally, so no failure reaches the per-delay retry
handler); after the pass every due row is processed, and the reports
pair each due delay with its delivery attempt. -/
theorem scheduler_marks_due_delays_after_delivery_attempt (senv : SchedulerEnv)
    (now : Int) (rows : List DelayRow) :
    (∀ r ∈ (process_expired_delays senv now rows).1,
        r.delay_completes_at ≤ now → r.processed = true) ∧
      (process_expired_delays senv now rows).2 =
        (get_pending_delays now rows).map
          (fun d => (d.id, trigger_delay_complete_webhook senv d)) := by
  rw [process_expired_delays_eq]
  refine ⟨?_, rfl⟩
  intro r' hr' hdue
  simp only [List.mem_map] at hr'
  obtain ⟨r, hr, heq⟩ := hr'
  by_cases hany : ((get_pending_delays now rows).any fun d => r.id == d.id) = true
  · rw [if_pos hany] at heq
    rw [← heq]
  · rw [if_neg hany] at heq
    subst heq
    cases hp : r.processed with
    | true => rfl
    | false =>
      exfalso
      apply hany
      apply List.any_eq_true.mpr
      refine ⟨r, ?_, by simp⟩
      apply List.mem_filter.mpr
      exact ⟨hr, by simp [hp, hdue]⟩

/-- Witness for C6: in the concrete failed-delivery run the due row ends
processed. -/
theorem scheduler_marks_due_delays_witness :
    ({ delayRowFixture with processed := true } : DelayRow).processed = true := by
  have h := (scheduler_marks_due_delays_after_delivery_attempt
    senvDeliveryFailsFixture 20 [delayRowFixture]).1
  exact h { delayRowFixture with processed := true } (by decide) (by decide)

/-- C6 counterexample: a due delay whose synthetic-event delivery fails
(the intake reports an error result) is still marked `processed = true`
in the same pass — the row does not remain `processed = false` for a
retry, refuting the claim. -/
theorem delay_marked_processed_despite_failed_delivery :
    process_expired_delays senvDeliveryFailsFixture 20 [delayRowFixture] =
      ([{ delayRowFixture with processed := true }],
        [("d1", DeliveryReport.delivered (WebhookOutcome.errorResult "downstream failed"))]) ∧
      delayRowFixture.processed = false := by
  exact ⟨rfl, rfl⟩

/-- C7: normalizing any Email-channel payload raises: `_normalize_email`
builds its result with `NormalizedMessage(user_reply=..., raw_data=...)`
while `NormalizedMessage.__init__` has no `raw_data` parameter, so
`normalize("email", "text", payload)` ends in `TypeError` for every
payload instead of returning a NormalizedEvent (the telegram, sms,
instagram and facebook parsers share the same defect). -/
theorem email_normalize_raises_type_error (body : PyDict) :
    normalize_message "email" "text" body = Except.error rawDataTypeError := rfl

/-- C8 amended: when the walker call fails (its node-process dispatch
returned a non-success result or timed out), the orchestrator does not
advance the user row — `is_in_automation`, `current_node_id` and
`validation.failure_count` are unchanged — but the webhook audit row is
marked `processed`, not `error`: the orchestrator's catch-all swallows
the failure and Intake sets `processed` unconditionally on return. -/
theorem walker_failure_no_advance_audit_processed (env : Env) (fuel : Nat)
    (u : StoredUser) (vr : ValidateReplyResult) (flowId channel : String)
    (hfail : (handle_user_input_reply env fuel u vr flowId channel).outcome =
      "node_service_failed") :
    (handle_user_input_reply env fuel u vr flowId channel).user = u ∧
      process_webhook_message_in_automation env fuel u vr flowId channel =
        (u, "processed") := by
  have huser : (handle_user_input_reply env fuel u vr flowId channel).user = u := by
    by_cases h1 : (vr.status == "validation_exit") = true
    · simp [handle_user_input_reply, h1]
    · cases hc : (process_validation_params u vr).current_node_id_for_service with
      | none => simp [handle_user_input_reply, h1, hc]
      | some cns =>
        by_cases hs : ((identify_and_process_node env fuel
            { is_validation_error := (process_validation_params u vr).is_validation_error,
              fallback_message := (process_validation_params u vr).fallback_message,
              node_id_to_process := (process_validation_params u vr).node_id_to_process,
              current_node_id := cns, channel := channel }).status == "success") = true
        · exfalso
          cases hn : (identify_and_process_node env fuel
              { is_validation_error := (process_validation_params u vr).is_validation_error,
                fallback_message := (process_validation_params u vr).fallback_message,
                node_id_to_process := (process_validation_params u vr).node_id_to_process,
                current_node_id := cns, channel := channel }).next_node_id with
          | none => simp [handle_user_input_reply, h1, hc, hs, hn] at hfail
          | some nid => simp [handle_user_input_reply, h1, hc, hs, hn] at hfail
        · simp [handle_user_input_reply, h1, hc, hs]
  refine ⟨huser, ?_⟩
  show ((handle_user_input_reply env fuel u vr flowId channel).user, "processed") =
    (u, "processed")
  rw [huser]

/-- Witness for C8: a failing dispatch on the `q1 -> m1` flow yields the
`node_service_failed` outcome, leaving the user row intact and the audit
row `processed`. -/
theorem walker_failure_no_advance_audit_processed_witness :
    process_webhook_message_in_automation envDispatchFailFixture 3
        userAtQuestionFixture { status := "use_default_edge" } "flow1" "whatsapp" =
      (userAtQuestionFixture, "processed") :=
  (walker_failure_no_advance_audit_processed envDispatchFailFixture 3
    userAtQuestionFixture { status := "use_default_edge" } "flow1" "whatsapp"
    (by decide)).2

/-- C8 counterexample: with the outbound dispatch failing, the walker
returns an error after emitting the node-process call, the user row is
unchanged — and the audit row reads `processed`, not `error`, refuting
the claim that it is marked `error`. -/
theorem dispatch_failure_audit_reads_processed :
    (identify_and_process_node envDispatchFailFixture 3
        { current_node_id := "q1" }).status = "error" ∧
      (identify_and_process_node envDispatchFailFixture 3
        { current_node_id := "q1" }).effects =
        [Effect.processNodeCall (some "q1") (some "m1") none false] ∧
      process_webhook_message_in_automation envDispatchFailFixture 3
          userAtQuestionFixture { status := "use_default_edge" } "flow1" "whatsapp" =
        (userAtQuestionFixture, "processed") ∧
      "processed" ≠ "error" := by
  refine ⟨by decide, by decide, by decide, by decide⟩

/-- Helper: the context upsert makes the variable readable under its
name. -/
theorem flowContextGet_save (ctx : List (String × String)) (name value : String) :
    flowContextGet (save_or_update_flow_variable ctx name value) name = some value := by
  unfold save_or_update_flow_variable
  by_cases hany : (ctx.any fun p => p.1 == name) = true
  · rw [if_pos hany]
    induction ctx with
    | nil => simp at hany
    | cons p ps ih =>
      by_cases hp : (p.1 == name) = true
      · simp [flowContextGet, List.find?, hp]
      · have hps : (ps.any fun q => q.1 == name) = true := by
          simp only [List.any_cons, hp, Bool.false_or] at hany
          exact hany
        simp only [List.map_cons, if_neg hp]
        simp only [flowContextGet, List.find?, hp]
        exact ih hps
  · rw [if_neg hany]
    unfold flowContextGet
    rw [List.find?_append]
    have hnone : (ctx.find? fun p => p.1 == name) = none := by
      apply List.find?_eq_none.mpr
      intro p hp
      intro hcontra
      apply hany
      exact List.any_eq_true.mpr ⟨p, hp, hcontra⟩
    rw [hnone]
    simp [List.find?]

/-- C9 amended: a text-question acceptance with `userInputVariable = "@x"`
persists the reply, and a following condition `@x Equal v` takes the
`__true` branch iff the accepted reply equals `v` case-insensitively
(`Equal` lowercases both operands). -/
theorem text_variable_roundtrip_ci (prims : PyPrims) (ctx : List (String × String))
    (node : FlowNode) (r v : String) (count : Int)
    (hq : node.nodeType = "question") (hvar : node.userInputVariable = "@x")
    (hr : r ≠ "")
    (hpass : validationPassed prims node.answerValidation r = true) :
    (validate_and_match_reply_is_text prims node r count).savedVariable =
        some ("@x", r) ∧
      process_condition_node prims (save_or_update_flow_variable ctx "@x" r)
          (conditionNodeFixture v) =
        some (if ciEqual r v then "cond1__true" else "cond1__false") ∧
      ((process_condition_node prims (save_or_update_flow_variable ctx "@x" r)
          (conditionNodeFixture v) = some "cond1__true") ↔ ciEqual r v = true) := by
  have hmatch : process_reply_match node r = none := by
    simp [process_reply_match, hq]
  have hsaved : (validate_and_match_reply_is_text prims node r count).savedVariable =
      some ("@x", r) := by
    have hvar' : node.userInputVariable ≠ "" := by
      rw [hvar]
      decide
    simp [validate_and_match_reply_is_text, hr, hmatch, hpass, hvar', hvar]
  have hactual : conditionActualValue (save_or_update_flow_variable ctx "@x" r) "@x" = r := by
    have hdata : "@x".data = ['@', 'x'] := rfl
    simp [conditionActualValue, hdata, flowContextGet_save, pyTruthy, hr]
  have hcond : process_condition_node prims (save_or_update_flow_variable ctx "@x" r)
      (conditionNodeFixture v) =
      some (if ciEqual r v then "cond1__true" else "cond1__false") := by
    have hids : extractBranchIds (conditionNodeFixture v).conditionResult =
        (some "cond1__true", some "cond1__false") := by rfl
    unfold process_condition_node
    simp only [conditionNodeFixture, hids]
    simp [evaluate_condition, hactual]
    by_cases hce : (ciEqual r v) = true
    · simp [hce]
      rfl
    · simp [hce]
      rfl
  refine ⟨hsaved, hcond, ?_⟩
  rw [hcond]
  by_cases hce : (ciEqual r v) = true
  · simp [hce]
  · simp [hce]

/-- Witness for C9: accepting `"hello"` into `@x` and evaluating
`@x Equal "hello"` takes the `__true` branch. -/
theorem text_variable_roundtrip_ci_witness :
    (validate_and_match_reply_is_text pyPrimsFixture plainQuestionFixture "hello" 0).savedVariable =
        some ("@x", "hello") ∧
      process_condition_node pyPrimsFixture
          (save_or_update_flow_variable [] "@x" "hello")
          (conditionNodeFixture "hello") = some "cond1__true" := by
  have h := text_variable_roundtrip_ci pyPrimsFixture [] plainQuestionFixture
    "hello" "hello" 0 rfl rfl (by decide) rfl
  refine ⟨h.1, ?_⟩
  rw [h.2.1]
  decide

/-- C9 counterexample: the reply `"V"` is accepted into `@x` and
`@x Equal "v"` takes the `__true` branch although `"V" ≠ "v"` — the
`Equal` comparator is case-insensitive, refuting the claim's literal
equality. -/
theorem roundtrip_true_branch_for_unequal_reply :
    (validate_and_match_reply_is_text pyPrimsFixture plainQuestionFixture "V" 0).savedVariable =
        some ("@x", "V") ∧
      process_condition_node pyPrimsFixture (save_or_update_flow_variable [] "@x" "V")
          (conditionNodeFixture "v") = some "cond1__true" ∧
      ("V" : String) ≠ "v" := by
  refine ⟨by decide, by decide, by decide⟩

/-- C10: any authenticated `POST /flow/status/(flow_id)` request with a
nonempty status — `published`, `stop` and `draft` alike — returns
HTTP 500 and leaves the stored flow status unchanged, because
`FlowService` has no `update_flow_status` method and the handler's call
raises `AttributeError` into the generic 500 handler. -/
theorem flow_status_endpoint_returns_500 (uid s storeStatus : String) (n : Int)
    (hparse : pyParseInt uid = some n) (hs : s ≠ "") :
    update_flow_status_endpoint (some uid) (some s) storeStatus =
      (500, storeStatus) := by
  simp only [update_flow_status_endpoint]
  rw [hparse]
  simp [pyTruthy, hs]

/-- Witness for C10: setting status `published` with user id 1 on a draft
flow yields HTTP 500 with the flow still in `draft`. -/
theorem flow_status_endpoint_returns_500_witness :
    update_flow_status_endpoint (some "1") (some "published") "draft" =
      (500, "draft") :=
  flow_status_endpoint_returns_500 "1" "published" "draft" 1 (by decide) (by decide)

/-- C5 amended: `resolve(source_id)` returns the target of the first stored
edge whose `source_node_id` equals `source_id`; in particular it returns a
target iff at least one such edge exists (first-found wins under
duplicates), and returns none when there is no such edge. -/
theorem resolve_first_matching_edge (edges : List Edge) (sourceId : String) :
    resolve edges sourceId =
        (edges.find? (fun e => e.source_node_id == sourceId)).map
          (fun e => e.target_node_id) ∧
      ((resolve edges sourceId).isSome ↔
        ∃ e ∈ edges, e.source_node_id = sourceId) := by
  constructor
  · induction edges with
    | nil => simp [resolve]
    | cons e rest ih =>
      by_cases h : (e.source_node_id == sourceId) = true
      · simp [resolve, h, List.find?]
      · simp [resolve, h, List.find?, ih]
  · induction edges with
    | nil => simp [resolve]
    | cons e rest ih =>
      by_cases h : (e.source_node_id == sourceId) = true
      · have he : e.source_node_id = sourceId := of_decide_eq_true h
        simp [resolve, h, he]
      · have he : ¬ e.source_node_id = sourceId := of_decide_eq_false (by simpa using h)
        simp [resolve, h, ih, he]

end AgentFlow
